import Mathlib

/-
Verification of the serial communication core of the BOB repository
(`BoBapp_python/serial_manager.py`) against its natural-language
specification.

The manager's mutable attributes become the record `SM`; the serial port's
`write` outcomes are an oracle `Env` indexed by the number of write attempts
made so far; every observable action (a frame written to the wire, a callback
invocation, the handshake event being set, a log line) is recorded in a trace
of `Effect`s.  Python string operations (`split`, `startswith`, `in`, `strip`,
`int(...)`) are re-implemented structurally over `List Char` so that all
definitions evaluate by `decide`/`rfl`.  Time values (`time.time()` floats)
are modelled as natural-number seconds.  Threads are modelled sequentially:
the reader loop consumes a script of per-iteration outcomes.
-/

namespace BoB

/-- Observable actions of the manager.  `sent f` is the line `f` handed to
`port.write` (the transport appends the trailing newline itself); `sendFail`
marks a `send_message` call that returned `False`; `connectionChanged b` is
the `CONNECTION_CHANGED` callback; `readyEventSet` is `ready_event.set()`;
`log` abstracts the `print` diagnostics of the dispatcher. -/
inductive Effect where
  | sent (frame : String)
  | sendFail
  | connectionChanged (up : Bool)
  | reconnectStopped
  | btnPress (mode button : Int)
  | sliderChange (slider value : Int)
  | modeChange (mode : Int)
  | readyEventSet
  | log (tag : String)
deriving DecidableEq

/-- The serial-port write oracle: `writeOk k` tells whether the `k`-th call of
`self.port.write` succeeds or raises. -/
structure Env where
  writeOk : Nat → Bool

/-- The mutable attributes of `SerialManager` (plus `port_exists`/`port_open`
for the `serial.Serial` object and its `is_open` flag, and `writes`, the
number of `port.write` attempts made so far, indexing the oracle). -/
structure SM where
  port_exists : Bool
  port_open : Bool
  is_connected : Bool
  is_syncing : Bool
  running : Bool
  read_thread_exists : Bool
  ready_event_set : Bool
  ready_received : Bool
  ready_handled : Bool
  reconnect_running : Bool
  preferred_port : Option String
  keepalive_enabled : Bool
  last_keepalive_sent : Nat
  last_message_time : Nat
  writes : Nat
deriving DecidableEq

/-- Which entries of the `callbacks` dict are registered (non-`None`). -/
structure Handlers where
  btn_press : Bool
  slider_change : Bool
  mode_change : Bool
  connection_changed : Bool
deriving DecidableEq

/-! ### Python string primitives over `List Char` -/

/-- Python `s.split(sep, 1)` for a one-character separator: `none` when the
separator does not occur (so also Python's `sep in s` test), otherwise the
part before the first occurrence and the part after it. -/
def breakCh (sep : Char) : List Char → Option (List Char × List Char)
  | [] => none
  | c :: cs =>
    if c = sep then some ([], cs)
    else match breakCh sep cs with
      | none => none
      | some (a, b) => some (c :: a, b)

/-- Auxiliary accumulator for `splitCh`. -/
def splitChAux (sep : Char) : List Char → List Char → List (List Char)
  | [], acc => [acc.reverse]
  | c :: cs, acc =>
    if c = sep then acc.reverse :: splitChAux sep cs []
    else splitChAux sep cs (c :: acc)

/-- Python `s.split(sep)` for a one-character separator. -/
def splitCh (sep : Char) (cs : List Char) : List (List Char) :=
  splitChAux sep cs []

/-- Python `pat in s` (substring containment). -/
def containsSub (pat : List Char) : List Char → Bool
  | [] => decide (pat = [])
  | c :: cs => pat.isPrefixOf (c :: cs) || containsSub pat cs

/-- Python `s.strip()` (ASCII whitespace; exotic Unicode space classes are
not modelled). -/
def trimCh (cs : List Char) : List Char :=
  ((cs.dropWhile Char.isWhitespace).reverse.dropWhile Char.isWhitespace).reverse

/-- Decimal digit value of a character. -/
def digitVal? (c : Char) : Option Nat :=
  if '0' ≤ c ∧ c ≤ '9' then some (c.toNat - '0'.toNat) else none

/-- Value of a non-empty all-digit character list. -/
def digitsVal : List Char → Option Nat
  | [] => none
  | cs =>
    cs.foldl
      (fun acc c =>
        match acc, digitVal? c with
        | some n, some d => some (n * 10 + d)
        | _, _ => none)
      (some 0)

/-- Python `int(s)` on a string: surrounding whitespace is stripped, an
optional sign is followed by decimal digits; `none` models the `ValueError`.
(Digit-group underscores accepted by Python are not modelled.) -/
def parsePyInt (cs : List Char) : Option Int :=
  match trimCh cs with
  | '-' :: rest => (digitsVal rest).map (fun n => -(n : Int))
  | '+' :: rest => (digitsVal rest).map (fun n => (n : Int))
  | t => (digitsVal t).map (fun n => (n : Int))

/-- The `int(param_parts[0]), int(param_parts[1])` parse of a two-integer
payload, `none` when an index or a conversion fails (the caught
`IndexError`/`ValueError`). -/
def intPair? (params : List Char) : Option (Int × Int) :=
  let ps := splitCh ':' params
  match ps[0]? with
  | none => none
  | some p0 =>
    match parsePyInt p0 with
    | none => none
    | some a =>
      match ps[1]? with
      | none => none
      | some p1 => (parsePyInt p1).map (fun b => (a, b))

/-! ### Configuration collaborator (`config_manager.py`) -/

/-- A button-config dict value: `config.get('hotkey', '')` and
`config.get('label', 'Button')`, so both keys may be absent. -/
structure BtnConfig where
  hotkey : Option String
  label : Option String
deriving DecidableEq

/-- The slider assignment as stored: historically either a plain string or a
list of app names (`isinstance(apps, list)` dual representation). -/
inductive SliderVal where
  | str (s : String)
  | list (l : List String)
deriving DecidableEq

/-- Python truthiness of a slider assignment (`if apps:`). -/
def truthy : SliderVal → Bool
  | .str s => s != ""
  | .list l => !l.isEmpty

/-- The `apps_str` computed in step 5 of `sync_all_configs`. -/
def apps_str : SliderVal → String
  | .list l => if l.isEmpty then "NONE" else String.intercalate "," l
  | .str s => s

/-- The `ConfigManager` collaborator.  Its Python `config` dict is
heterogeneous; the sync loop's key filter (`key.startswith("mode_") and
"_btn_" in key`) selects exactly the button entries, so only those values are
modelled in `config`, while `num_modes` and the `mode_<m>_name` entries read
through `get_num_modes`/`get_mode_name` are modelled as separate fields. -/
structure ConfigManager where
  num_modes_entry : Option Nat
  mode_name_entries : List (Nat × String)
  config : List (String × BtnConfig)
deriving DecidableEq

/-- `ConfigManager.get_num_modes`: `self.config.get('num_modes', 4)`. -/
def get_num_modes (cm : ConfigManager) : Nat :=
  cm.num_modes_entry.getD 4

/-- `ConfigManager.get_mode_name`: `self.config.get(f"mode_{mode}_name",
f"Mode {mode + 1}")`. -/
def get_mode_name (cm : ConfigManager) (mode : Nat) : String :=
  match cm.mode_name_entries.lookup mode with
  | some n => n
  | none => "Mode " ++ toString (mode + 1)

/-! ### Outbound path (`send_message` and the `send_*` encoders) -/

/-- The connection is usable for a send: the guard
`self.is_connected and self.port and self.port.is_open`. -/
def alive (s : SM) : Bool :=
  s.is_connected && s.port_exists && s.port_open

/-- `SerialManager.send_message` (lines 363-384): returns `False` without
touching state when not connected or the port is missing/closed; otherwise
attempts the write, and on an exception sets `is_connected = False` (and
nothing else) and returns `False`. -/
def send_message (env : Env) (s : SM) (msg : String) : SM × Bool × List Effect :=
  if alive s then
    if env.writeOk s.writes then
      ({ s with writes := s.writes + 1 }, true, [.sent msg])
    else
      ({ s with writes := s.writes + 1, is_connected := false }, false, [.sendFail])
  else (s, false, [.sendFail])

/-- The `BTN:{mode}:{button}:{hotkey}:{label}` line of `send_button_config`. -/
def btn_frame (mode button : Int) (config : BtnConfig) : String :=
  "BTN:" ++ toString mode ++ ":" ++ toString button ++ ":" ++
    config.hotkey.getD "" ++ ":" ++ config.label.getD "Button"

/-- `SerialManager.send_button_config`. -/
def send_button_config (env : Env) (s : SM) (mode button : Int)
    (config : BtnConfig) : SM × Bool × List Effect :=
  send_message env s (btn_frame mode button config)

/-- `SerialManager.send_mode_count`. -/
def send_mode_count (env : Env) (s : SM) (count : Nat) : SM × Bool × List Effect :=
  send_message env s ("MODE_COUNT:" ++ toString count)

/-- The `MODE_NAME:{mode}:{name}` line of `send_mode_name`. -/
def mode_name_frame (cm : ConfigManager) (mode : Nat) : String :=
  "MODE_NAME:" ++ toString mode ++ ":" ++ get_mode_name cm mode

/-- `SerialManager.send_mode_name`. -/
def send_mode_name (env : Env) (s : SM) (mode : Nat) (name : String) :
    SM × Bool × List Effect :=
  send_message env s ("MODE_NAME:" ++ toString mode ++ ":" ++ name)

/-- The `SLIDER:{slider}:{apps_str}` line of step 5 of `sync_all_configs`. -/
def slider_frame (slider : Nat) (apps : SliderVal) : String :=
  "SLIDER:" ++ toString slider ++ ":" ++ apps_str apps

/-- `SerialManager.send_slider_config`. -/
def send_slider_config (env : Env) (s : SM) (slider : Nat) (app_name : String) :
    SM × Bool × List Effect :=
  send_message env s ("SLIDER:" ++ toString slider ++ ":" ++ app_name)

/-- `SerialManager.send_sync_start`: sets `is_syncing = True` and then sends
`SYNC_START`. -/
def send_sync_start (env : Env) (s : SM) : SM × Bool × List Effect :=
  send_message env { s with is_syncing := true } "SYNC_START"

/-- `SerialManager.send_sync_end`: sends `SYNC_END`, then unconditionally
clears `is_syncing`, and returns the send result. -/
def send_sync_end (env : Env) (s : SM) : SM × Bool × List Effect :=
  let r := send_message env s "SYNC_END"
  ({ r.1 with is_syncing := false }, r.2.1, r.2.2)

/-! ### Disconnection paths -/

/-- `SerialManager.stop_auto_reconnect` (lines 605-617): clears the running
flag (the bounded join is a timing detail outside the model). -/
def stop_auto_reconnect (s : SM) : SM × List Effect :=
  if s.reconnect_running then
    ({ s with reconnect_running := false }, [.reconnectStopped])
  else (s, [])

/-- `SerialManager.disconnect` (lines 150-170): stops the auto-reconnect
loop, clears the reader's running flag, and — only if the port object exists
and is open — closes it, clears `is_connected`, and fires
`CONNECTION_CHANGED(False)` when that callback is registered. -/
def disconnect (h : Handlers) (s : SM) : SM × List Effect :=
  let r := stop_auto_reconnect s
  let s1 := { r.1 with running := false }
  if s1.port_exists && s1.port_open then
    ({ s1 with port_open := false, is_connected := false },
      r.2 ++ (if h.connection_changed then [.connectionChanged false] else []))
  else (s1, r.2)

/-- `SerialManager._handle_disconnection` (lines 246-274): a no-op when
already disconnected; otherwise clears `is_connected`, closes the port
defensively, and fires `CONNECTION_CHANGED(False)` when registered.  It does
not touch the auto-reconnect state. -/
def handle_disconnection (h : Handlers) (s : SM) : SM × List Effect :=
  if s.is_connected then
    let s1 := { s with is_connected := false }
    let s2 := if s1.port_exists && s1.port_open then { s1 with port_open := false } else s1
    (s2, if h.connection_changed then [.connectionChanged false] else [])
  else (s, [])

/-! ### Inbound dispatcher (`_handle_incoming_message`, lines 276-361) -/

/-- `SerialManager._handle_incoming_message`: refreshes the heartbeat
timestamp first, then splits on the first `:` for the type tag and routes.
Parse failures of `BTN_PRESS`/`SLIDER_CHANGE`/`MODE_CHANGE` payloads are the
caught-and-logged `except` branches.  A first `READY:<info>` (or a `Pong`
while the handshake is still pending) sets `ready_received` and fires
`ready_event.set()`; repeats are logged only.  A colon-less frame other than
`Pong` (including a bare `READY`) is logged as info. -/
def handle_incoming_message (h : Handlers) (now : Nat) (s : SM) (message : String) :
    SM × List Effect :=
  let s := { s with last_message_time := now }
  match breakCh ':' message.data with
  | some (ty, params) =>
    if ty = "BTN_PRESS".data then
      match intPair? params with
      | some (m, b) => (s, if h.btn_press then [.btnPress m b] else [])
      | none => (s, [.log "parse_error:BTN_PRESS"])
    else if ty = "SLIDER_CHANGE".data then
      match intPair? params with
      | some (sl, v) => (s, if h.slider_change then [.sliderChange sl v] else [])
      | none => (s, [.log "parse_error:SLIDER_CHANGE"])
    else if ty = "MODE_CHANGE".data then
      match parsePyInt params with
      | some m => (s, if h.mode_change then [.modeChange m] else [])
      | none => (s, [.log "parse_error:MODE_CHANGE"])
    else if "ACK".data.isPrefixOf ty then (s, [.log "ack"])
    else if ty = "READY".data then
      if s.ready_received then (s, [.log "ready_repeat"])
      else ({ s with ready_received := true, ready_event_set := true }, [.readyEventSet])
    else if "ERROR".data.isPrefixOf ty then (s, [.log "pico_error"])
    else (s, [])
  | none =>
    if message.data = "Pong".data then
      if s.ready_received then (s, [.log "pong"])
      else ({ s with ready_received := true, ready_event_set := true }, [.readyEventSet])
    else (s, [.log "info"])

/-! ### Sync engine (`sync_all_configs`, lines 494-578) -/

/-- The key filter and parse of step 4: `key.startswith("mode_") and "_btn_"
in key`, then `parts = key.split("_")`, `mode = int(parts[1])`,
`button = int(parts[3])`, skipping on `IndexError`/`ValueError`. -/
def btnKey? (key : String) : Option (Int × Int) :=
  if "mode_".data.isPrefixOf key.data && containsSub "_btn_".data key.data then
    let parts := splitCh '_' key.data
    match parts[1]? with
    | none => none
    | some p1 =>
      match parsePyInt p1 with
      | none => none
      | some m =>
        match parts[3]? with
        | none => none
        | some p3 => (parsePyInt p3).map (fun b => (m, b))
  else none

/-- Step 3 of `sync_all_configs`: the `for mode in range(num_modes)` loop
sending mode names and counting successes. -/
def syncModeNamesGo (env : Env) (cm : ConfigManager) : SM → List Nat → SM × Nat × List Effect
  | s, [] => (s, 0, [])
  | s, m :: ms =>
    let r := send_mode_name env s m (get_mode_name cm m)
    let rest := syncModeNamesGo env cm r.1 ms
    (rest.1, (if r.2.1 then 1 else 0) + rest.2.1, r.2.2 ++ rest.2.2)

/-- Step 4 of `sync_all_configs`: iterate the config items, send the entries
selected by `btnKey?`, count successes. -/
def syncButtonsGo (env : Env) : SM → List (String × BtnConfig) → SM × Nat × List Effect
  | s, [] => (s, 0, [])
  | s, (key, cfg) :: rest =>
    match btnKey? key with
    | some (m, b) =>
      let r := send_button_config env s m b cfg
      let r2 := syncButtonsGo env r.1 rest
      (r2.1, (if r.2.1 then 1 else 0) + r2.2.1, r.2.2 ++ r2.2.2)
    | none => syncButtonsGo env s rest

/-- Step 5 of `sync_all_configs`: `for i, apps in enumerate(slider_apps)`,
sending one `SLIDER` frame per truthy assignment (successes not counted). -/
def syncSlidersGo (env : Env) : SM → Nat → List SliderVal → SM × List Effect
  | s, _, [] => (s, [])
  | s, i, a :: rest =>
    if truthy a then
      let r := send_slider_config env s i (apps_str a)
      let r2 := syncSlidersGo env r.1 (i + 1) rest
      (r2.1, r.2.2 ++ r2.2)
    else syncSlidersGo env s (i + 1) rest

/-- `SerialManager.sync_all_configs`: the complete sync transaction.  Returns
the final state, the count of mode names plus button configs sent, and the
emitted trace.  The inter-frame `time.sleep` pacing has no observable effect
in the model. -/
def sync_all_configs (env : Env) (s : SM) (cm : ConfigManager)
    (slider_apps : List SliderVal) : SM × Nat × List Effect :=
  if s.is_connected = false then (s, 0, [])
  else
    let r1 := send_sync_start env s
    if r1.2.1 = false then (r1.1, 0, r1.2.2)
    else
      let n := get_num_modes cm
      let r2 := send_mode_count env r1.1 n
      if r2.2.1 = false then (r2.1, 0, r1.2.2 ++ r2.2.2)
      else
        let r3 := syncModeNamesGo env cm r2.1 (List.range n)
        let r4 := syncButtonsGo env r3.1 cm.config
        let r5 := syncSlidersGo env r4.1 0 slider_apps
        let r6 := send_sync_end env r5.1
        if r6.2.1 = false then
          (r6.1, 0, r1.2.2 ++ r2.2.2 ++ r3.2.2 ++ r4.2.2 ++ r5.2 ++ r6.2.2)
        else
          (r6.1, r3.2.1 + r4.2.1, r1.2.2 ++ r2.2.2 ++ r3.2.2 ++ r4.2.2 ++ r5.2 ++ r6.2.2)

/-! ### Reader loop (`_read_loop`, lines 172-244) -/

/-- `max_errors = 5`. -/
def max_errors : Nat := 5

/-- `keepalive_interval = 5.0` seconds. -/
def keepalive_interval : Nat := 5

/-- The environment-determined outcome of one iteration of the reader loop:
data became available and was read, nothing was available, or the iteration
raised a `serial.SerialException`/`OSError` or an unexpected exception. -/
inductive ReadKind where
  | avail (data : String)
  | idle
  | ioError
  | unexpectedError
deriving DecidableEq

/-- One scripted reader-loop iteration: the current `time.time()` and the
iteration's outcome. -/
structure ReadEvent where
  now : Nat
  kind : ReadKind
deriving DecidableEq

/-- The reader thread's local state: the manager, the line reassembly buffer,
and the consecutive-error counter. -/
structure RL where
  sm : SM
  buffer : List Char
  consecutive_errors : Nat
deriving DecidableEq

/-- Dispatch the complete lines split off the buffer: each is stripped and,
when non-empty, handed to `_handle_incoming_message`. -/
def dispatch_lines (h : Handlers) (now : Nat) : SM → List (List Char) → SM × List Effect
  | s, [] => (s, [])
  | s, l :: ls =>
    let lt := trimCh l
    if lt.isEmpty then dispatch_lines h now s ls
    else
      let r1 := handle_incoming_message h now s (String.mk lt)
      let r2 := dispatch_lines h now r1.1 ls
      (r2.1, r1.2 ++ r2.2)

/-- One iteration of the `while` body of `_read_loop`: first the keepalive
`PING` when due, then the branch selected by the event — a successful read
(append to buffer, reset the error counter, process complete lines), the
port-closed check, or the exception handlers incrementing the consecutive
error counter and escalating to the fault path at `max_errors`.  The third
component tells whether the loop continues. -/
def read_iter (h : Handlers) (env : Env) (rl : RL) (ev : ReadEvent) :
    RL × List Effect × Bool :=
  let kaR :=
    if rl.sm.keepalive_enabled &&
        decide (keepalive_interval ≤ ev.now - rl.sm.last_keepalive_sent) then
      let r := send_message env rl.sm "PING"
      ({ r.1 with last_keepalive_sent := ev.now }, r.2.2)
    else (rl.sm, ([] : List Effect))
  let s0 := kaR.1
  match ev.kind with
  | .avail data =>
    if s0.port_exists && s0.port_open then
      let segs := splitCh '\n' (rl.buffer ++ data.data)
      let r := dispatch_lines h ev.now s0 segs.dropLast
      (⟨r.1, segs.getLastD [], 0⟩, kaR.2 ++ r.2, true)
    else
      let r := handle_disconnection h s0
      (⟨r.1, rl.buffer, rl.consecutive_errors⟩, kaR.2 ++ r.2, false)
  | .idle =>
    if s0.port_exists && s0.port_open then
      (⟨s0, rl.buffer, rl.consecutive_errors⟩, kaR.2, true)
    else
      let r := handle_disconnection h s0
      (⟨r.1, rl.buffer, rl.consecutive_errors⟩, kaR.2 ++ r.2, false)
  | .ioError =>
    let e := rl.consecutive_errors + 1
    if max_errors ≤ e then
      let r := handle_disconnection h s0
      (⟨r.1, rl.buffer, e⟩, kaR.2 ++ r.2, false)
    else (⟨s0, rl.buffer, e⟩, kaR.2, true)
  | .unexpectedError =>
    let e := rl.consecutive_errors + 1
    if max_errors ≤ e then
      let r := handle_disconnection h s0
      (⟨r.1, rl.buffer, e⟩, kaR.2 ++ r.2, false)
    else (⟨s0, rl.buffer, e⟩, kaR.2, true)

/-- The `while self.running and self.is_connected:` loop over a finite script
of iteration outcomes. -/
def read_loop_go (h : Handlers) (env : Env) : RL → List ReadEvent → RL × List Effect
  | rl, [] => (rl, [])
  | rl, ev :: rest =>
    if rl.sm.running && rl.sm.is_connected then
      let r := read_iter h env rl ev
      if r.2.2 then
        let r2 := read_loop_go h env r.1 rest
        (r2.1, r.2.1 ++ r2.2)
      else (r.1, r.2.1)
    else (rl, [])

/-- `_read_loop` entry: empty buffer, zero consecutive errors. -/
def read_loop (h : Handlers) (env : Env) (s : SM) (evs : List ReadEvent) :
    RL × List Effect :=
  read_loop_go h env ⟨s, [], 0⟩ evs

/-! ### Connection status (`get_connection_status`, lines 679-694) -/

/-- The dict returned by `get_connection_status`. -/
structure ConnStatus where
  connected : Bool
  port : String
  port_open : Bool
  read_thread_alive : Bool
  reconnect_active : Bool
  last_message_ago : Int
deriving DecidableEq

/-- `SerialManager.get_connection_status`; the thread-liveness probe and the
current time are environment inputs. -/
def get_connection_status (s : SM) (thread_alive : Bool) (now : Nat) : ConnStatus :=
  { connected := s.is_connected
    port := s.preferred_port.getD "None"
    port_open := if s.port_exists then s.port_open else false
    read_thread_alive := if s.read_thread_exists then thread_alive else false
    reconnect_active := s.reconnect_running
    last_message_ago :=
      if 0 < s.last_message_time then (now : Int) - (s.last_message_time : Int) else -1 }

/-- `SerialManager.connect` (lines 105-148): remembers the preferred port,
then on a successful open resets the handshake flags, initializes the
heartbeat clocks, starts the reader thread, and fires
`CONNECTION_CHANGED(True)`; on failure only clears `is_connected`. -/
def connect (h : Handlers) (openOk : Bool) (now : Nat) (s : SM) (port_name : String) :
    SM × Bool × List Effect :=
  let s := { s with preferred_port := some port_name }
  if openOk then
    let s := { s with
      port_exists := true, port_open := true, is_connected := true,
      ready_event_set := false, ready_received := false, ready_handled := false,
      last_message_time := now, last_keepalive_sent := now,
      running := true, read_thread_exists := true }
    (s, true, if h.connection_changed then [.connectionChanged true] else [])
  else ({ s with is_connected := false }, false, [])

/-! ### Concrete fixtures used by witnesses and counterexamples -/

/-- All four callbacks registered. -/
def h_all : Handlers := ⟨true, true, true, true⟩

/-- A port whose writes always succeed. -/
def env_ok : Env := ⟨fun _ => true⟩

/-- A port whose writes always raise. -/
def env_none : Env := ⟨fun _ => false⟩

/-- A healthy connected manager right after the handshake wait started. -/
def s_live : SM :=
  { port_exists := true, port_open := true, is_connected := true,
    is_syncing := false, running := true, read_thread_exists := true,
    ready_event_set := false, ready_received := false, ready_handled := false,
    reconnect_running := true, preferred_port := some "COM3",
    keepalive_enabled := false, last_keepalive_sent := 0,
    last_message_time := 0, writes := 0 }

/-- A manager that still believes itself connected while the OS port handle
has been closed (e.g. after an external failure). -/
def s_portclosed : SM := { s_live with port_open := false }

/-- The spec's example configuration: 3 modes with mode 1 unnamed, 4
configured buttons (plus a non-button key the sync filter must skip). -/
def cm_ex : ConfigManager :=
  { num_modes_entry := some 3,
    mode_name_entries := [(0, "Media"), (2, "Games")],
    config :=
      [("mode_0_btn_0", ⟨some "ctrl+c", some "Copy"⟩),
       ("mode_0_btn_1", ⟨some "ctrl+v", some "Paste"⟩),
       ("theme", ⟨none, none⟩),
       ("mode_1_btn_3", ⟨none, some "Launch"⟩),
       ("mode_2_btn_8", ⟨some "alt+f4", none⟩)] }

/-- The spec's example slider table: exactly two non-empty assignments. -/
def apps_ex : List SliderVal :=
  [.list ["chrome.exe", "spotify.exe"], .str "", .str "discord.exe"]

/-- A manager whose `is_connected` flag is already down. -/
def s_off : SM := { s_live with is_connected := false }

/-- Every attempted `port.write` succeeds. -/
def allOk (env : Env) : Prop := ∀ k, env.writeOk k = true

/-- No `CONNECTION_CHANGED` notification occurs in the trace. -/
def ccFree (t : List Effect) : Prop := ∀ b, Effect.connectionChanged b ∉ t

/-- The number of `CONNECTION_CHANGED(False)` notifications in a trace. -/
def ccDownCount (t : List Effect) : Nat := t.count (Effect.connectionChanged false)

/-- The connection-infrastructure fields that the sync engine must leave
untouched: the port object, its open flag, the reader's running flag, and the
auto-reconnect flag. -/
def inert (s t : SM) : Prop :=
  t.port_exists = s.port_exists ∧ t.port_open = s.port_open ∧
  t.running = s.running ∧ t.reconnect_running = s.reconnect_running

/-- The `MODE_NAME` frames step 3 emits, ascending over all mode indices. -/
def mode_name_frames (cm : ConfigManager) (n : Nat) : List Effect :=
  (List.range n).map (fun m => Effect.sent (mode_name_frame cm m))

/-- The `BTN` frames step 4 emits: one per config entry passing the key
filter and parse, in iteration order. -/
def btn_frames (items : List (String × BtnConfig)) : List Effect :=
  items.filterMap (fun kc => (btnKey? kc.1).map (fun mb => Effect.sent (btn_frame mb.1 mb.2 kc.2)))

/-- The `SLIDER` frames step 5 emits: one per truthy assignment, keeping the
enumeration index of every entry. -/
def slider_frames : Nat → List SliderVal → List Effect
  | _, [] => []
  | i, a :: rest =>
    (if truthy a then [Effect.sent (slider_frame i a)] else []) ++ slider_frames (i + 1) rest

/-! ## Helper lemmas -/

theorem inert_refl (s : SM) : inert s s := ⟨rfl, rfl, rfl, rfl⟩

theorem inert_trans {s t u : SM} (h1 : inert s t) (h2 : inert t u) : inert s u :=
  ⟨h2.1.trans h1.1, h2.2.1.trans h1.2.1, h2.2.2.1.trans h1.2.2.1, h2.2.2.2.trans h1.2.2.2⟩

theorem ccFree_nil : ccFree [] := by intro b hb; cases hb

theorem ccFree_append {t1 t2 : List Effect} (h1 : ccFree t1) (h2 : ccFree t2) :
    ccFree (t1 ++ t2) := by
  intro b hb
  rcases List.mem_append.mp hb with hm | hm
  · exact h1 b hm
  · exact h2 b hm

/-! ### `send_message` lemmas -/

theorem send_cases (env : Env) (s : SM) (msg : String) :
    (alive s = true ∧ env.writeOk s.writes = true ∧
      send_message env s msg = ({ s with writes := s.writes + 1 }, true, [.sent msg])) ∨
    (alive s = true ∧ env.writeOk s.writes = false ∧
      send_message env s msg =
        ({ s with writes := s.writes + 1, is_connected := false }, false, [.sendFail])) ∨
    (alive s = false ∧ send_message env s msg = (s, false, [.sendFail])) := by
  unfold send_message
  by_cases ha : alive s = true
  · by_cases hw : env.writeOk s.writes = true
    · exact Or.inl ⟨ha, hw, by rw [if_pos ha, if_pos hw]⟩
    · refine Or.inr (Or.inl ⟨ha, by simpa using hw, ?_⟩)
      rw [if_pos ha, if_neg hw]
  · refine Or.inr (Or.inr ⟨by simpa using ha, ?_⟩)
    rw [if_neg ha]

theorem send_ok {env : Env} (henv : allOk env) {s : SM} (hs : alive s = true)
    (msg : String) :
    send_message env s msg = ({ s with writes := s.writes + 1 }, true, [.sent msg]) := by
  rcases send_cases env s msg with ⟨_, _, he⟩ | ⟨_, hw, _⟩ | ⟨ha, _⟩
  · exact he
  · rw [henv s.writes] at hw; cases hw
  · rw [hs] at ha; cases ha

theorem send_dead {env : Env} {s : SM} (hs : alive s = false) (msg : String) :
    send_message env s msg = (s, false, [.sendFail]) := by
  rcases send_cases env s msg with ⟨ha, _, _⟩ | ⟨ha, _, _⟩ | ⟨_, he⟩
  · rw [hs] at ha; cases ha
  · rw [hs] at ha; cases ha
  · exact he

theorem send_fail_dead {env : Env} {s : SM} {msg : String}
    (hf : (send_message env s msg).2.1 = false) :
    alive (send_message env s msg).1 = false := by
  rcases send_cases env s msg with ⟨_, _, he⟩ | ⟨_, _, he⟩ | ⟨ha, he⟩
  · rw [he] at hf; cases hf
  · rw [he]; simp [alive]
  · rw [he]; exact ha

theorem send_sendFail_mem {env : Env} {s : SM} {msg : String}
    (hm : Effect.sendFail ∈ (send_message env s msg).2.2) :
    alive (send_message env s msg).1 = false := by
  rcases send_cases env s msg with ⟨_, _, he⟩ | ⟨_, _, he⟩ | ⟨ha, he⟩
  · rw [he] at hm; simp at hm
  · rw [he]; simp [alive]
  · rw [he]; exact ha

theorem send_true_trace {env : Env} {s : SM} {msg : String}
    (ht : (send_message env s msg).2.1 = true) :
    (send_message env s msg).2.2 = [.sent msg] := by
  rcases send_cases env s msg with ⟨_, _, he⟩ | ⟨_, _, he⟩ | ⟨_, he⟩
  · rw [he]
  · rw [he] at ht; cases ht
  · rw [he] at ht; cases ht

theorem send_inert (env : Env) (s : SM) (msg : String) :
    inert s (send_message env s msg).1 := by
  rcases send_cases env s msg with ⟨_, _, he⟩ | ⟨_, _, he⟩ | ⟨_, he⟩ <;>
    rw [he] <;> exact ⟨rfl, rfl, rfl, rfl⟩

theorem send_ccFree (env : Env) (s : SM) (msg : String) :
    ccFree (send_message env s msg).2.2 := by
  intro b hb
  rcases send_cases env s msg with ⟨_, _, he⟩ | ⟨_, _, he⟩ | ⟨_, he⟩ <;>
    rw [he] at hb <;> simp at hb

theorem send_syncing (env : Env) (s : SM) (msg : String) :
    (send_message env s msg).1.is_syncing = s.is_syncing := by
  rcases send_cases env s msg with ⟨_, _, he⟩ | ⟨_, _, he⟩ | ⟨_, he⟩ <;> rw [he]

/-! ## Claim theorems -/

/-- C7: encoding the button config `(mode=2, button=5, hotkey="ctrl+shift+m",
label="Mute")` produces exactly the line `BTN:2:5:ctrl+shift+m:Mute` (the
newline is added only by the transport), and dispatching the inbound frame
`BTN_PRESS:2:5` invokes the registered `BTN_PRESS` handler with `(2, 5)`. -/
theorem frame_round_trip :
    (send_button_config env_ok s_live 2 5 ⟨some "ctrl+shift+m", some "Mute"⟩).2.2 =
      [Effect.sent "BTN:2:5:ctrl+shift+m:Mute"] ∧
    (send_button_config env_ok s_live 2 5 ⟨some "ctrl+shift+m", some "Mute"⟩).2.1 = true ∧
    (handle_incoming_message h_all 1 s_live "BTN_PRESS:2:5").2 = [Effect.btnPress 2 5] := by
  decide

/-- C5: `disconnect()` twice in a row fires `CONNECTION_CHANGED(False)` at
most once in total, and invoking the fault path `_handle_disconnection` on an
already-disconnected manager is a strict no-op (no state change, no
notification).  Both operations are total functions of the state, so neither
raises. -/
theorem disconnect_idempotent (h : Handlers) (s : SM) :
    ccDownCount ((disconnect h s).2 ++ (disconnect h (disconnect h s).1).2) ≤ 1 ∧
    (s.is_connected = false → handle_disconnection h s = (s, [])) := by
  constructor
  · unfold disconnect stop_auto_reconnect
    by_cases h1 : s.reconnect_running = true <;>
      by_cases h2 : s.port_exists = true <;>
      by_cases h3 : s.port_open = true <;>
      by_cases h4 : h.connection_changed = true <;>
      simp [h1, h2, h3, h4, ccDownCount, List.count_cons, List.count_nil]
  · intro hc
    unfold handle_disconnection
    rw [if_neg (by rw [hc]; exact Bool.false_ne_true)]

/-- C5 witness: a disconnected manager, concretely. -/
theorem disconnect_idempotent_witness :
    ccDownCount ((disconnect h_all s_off).2 ++ (disconnect h_all (disconnect h_all s_off).1).2) ≤ 1 ∧
    handle_disconnection h_all s_off = (s_off, []) :=
  ⟨(disconnect_idempotent h_all s_off).1, (disconnect_idempotent h_all s_off).2 rfl⟩

/-- C6: `disconnect()` always clears the auto-reconnect running flag, and
does so before any other observable action (the `reconnectStopped` action
heads its trace whenever the loop was running); the fault path
`_handle_disconnection` leaves the auto-reconnect flag untouched and never
stops the reconnect loop, so auto-reconnect keeps running after a fault-path
disconnection. -/
theorem fault_keeps_reconnect (h : Handlers) (s : SM) :
    (disconnect h s).1.reconnect_running = false ∧
    (s.reconnect_running = true → (disconnect h s).2.head? = some Effect.reconnectStopped) ∧
    (handle_disconnection h s).1.reconnect_running = s.reconnect_running ∧
    Effect.reconnectStopped ∉ (handle_disconnection h s).2 := by
  refine ⟨?_, ?_, ?_, ?_⟩
  · unfold disconnect stop_auto_reconnect
    by_cases h1 : s.reconnect_running = true <;>
      by_cases h2 : s.port_exists = true <;>
      by_cases h3 : s.port_open = true <;>
      simp [h1, h2, h3]
  · intro h1
    unfold disconnect stop_auto_reconnect
    by_cases h2 : s.port_exists = true <;>
      by_cases h3 : s.port_open = true <;>
      simp [h1, h2, h3]
  · unfold handle_disconnection
    by_cases h1 : s.is_connected = true <;>
      by_cases h2 : s.port_exists = true <;>
      by_cases h3 : s.port_open = true <;>
      simp [h1, h2, h3]
  · unfold handle_disconnection
    by_cases h1 : s.is_connected = true <;>
      by_cases h2 : s.port_exists = true <;>
      by_cases h3 : s.port_open = true <;>
      by_cases h4 : h.connection_changed = true <;>
      simp [h1, h2, h3, h4]

/-- C6 witness: on the live fixture (auto-reconnect running) `disconnect`
stops the loop first, while the fault path leaves it running. -/
theorem fault_keeps_reconnect_witness :
    (disconnect h_all s_live).1.reconnect_running = false ∧
    (disconnect h_all s_live).2.head? = some Effect.reconnectStopped ∧
    (handle_disconnection h_all s_live).1.reconnect_running = s_live.reconnect_running :=
  ⟨(fault_keeps_reconnect h_all s_live).1,
   (fault_keeps_reconnect h_all s_live).2.1 rfl,
   (fault_keeps_reconnect h_all s_live).2.2.1⟩

/-- C10: when the port write raises inside `send_message`, the call returns
`False` and clears only `is_connected` (one write attempt is consumed); no
port close, no `CONNECTION_CHANGED` notification, and no reader-thread stop
happen, so `get_connection_status` then reports `connected = False` while
`port_open` is still `True`. -/
theorem send_failure_partial (env : Env) (s : SM) (msg : String) (ta : Bool) (now : Nat)
    (hc : s.is_connected = true) (hpe : s.port_exists = true) (hpo : s.port_open = true)
    (hw : env.writeOk s.writes = false) :
    send_message env s msg =
      ({ s with writes := s.writes + 1, is_connected := false }, false, [Effect.sendFail]) ∧
    (get_connection_status (send_message env s msg).1 ta now).connected = false ∧
    (get_connection_status (send_message env s msg).1 ta now).port_open = true := by
  have he : send_message env s msg =
      ({ s with writes := s.writes + 1, is_connected := false }, false, [Effect.sendFail]) := by
    rcases send_cases env s msg with ⟨_, hw2, _⟩ | ⟨_, _, he⟩ | ⟨ha, _⟩
    · rw [hw] at hw2; cases hw2
    · exact he
    · rw [alive, hc, hpe, hpo] at ha; cases ha
  refine ⟨he, ?_, ?_⟩ <;> rw [he] <;> simp [get_connection_status, hpe, hpo]

/-- C10 witness: the failing write on the live fixture. -/
theorem send_failure_partial_witness :
    send_message env_none s_live "PING" =
      ({ s_live with writes := s_live.writes + 1, is_connected := false }, false,
        [Effect.sendFail]) ∧
    (get_connection_status (send_message env_none s_live "PING").1 true 9).connected = false ∧
    (get_connection_status (send_message env_none s_live "PING").1 true 9).port_open = true :=
  send_failure_partial env_none s_live "PING" true 9 rfl rfl rfl rfl

theorem breakCh_append (sep : Char) (b : List Char) :
    ∀ a : List Char, sep ∉ a → breakCh sep (a ++ sep :: b) = some (a, b)
  | [], _ => by simp [breakCh]
  | c :: cs, ha => by
    have hc : c ≠ sep := by intro h; exact ha (by simp [h])
    have ih := breakCh_append sep b cs (fun h => ha (List.mem_cons_of_mem c h))
    simp [breakCh, hc, ih]

theorem breakCh_ready (p : String) :
    breakCh ':' ("READY:" ++ p).data = some ("READY".data, p.data) := by
  have h1 : ("READY:" ++ p).data = "READY".data ++ ':' :: p.data := by
    rw [String.data_append]
    simp
  rw [h1]
  exact breakCh_append ':' p.data "READY".data (by decide)

theorem handle_state_cases (h : Handlers) (now : Nat) (s : SM) (m : String) :
    (handle_incoming_message h now s m).1 = { s with last_message_time := now } ∨
    (handle_incoming_message h now s m).1 =
      { s with last_message_time := now, ready_received := true, ready_event_set := true } := by
  unfold handle_incoming_message
  rcases hbk : breakCh ':' m.data with _ | ⟨ty, params⟩ <;> simp only [hbk] <;>
    (repeat' split) <;> simp

theorem handle_ccFree (h : Handlers) (now : Nat) (s : SM) (m : String) :
    ccFree (handle_incoming_message h now s m).2 := by
  intro b
  unfold handle_incoming_message
  rcases hbk : breakCh ':' m.data with _ | ⟨ty, params⟩ <;> simp only [hbk] <;>
    (repeat' split) <;> simp

theorem breakCh_slider_change (p : String) :
    breakCh ':' ("SLIDER_CHANGE:" ++ p).data = some ("SLIDER_CHANGE".data, p.data) := by
  have h1 : ("SLIDER_CHANGE:" ++ p).data = "SLIDER_CHANGE".data ++ ':' :: p.data := by
    rw [String.data_append]; simp
  rw [h1]
  exact breakCh_append ':' p.data "SLIDER_CHANGE".data (by decide)

theorem breakCh_btn_press (p : String) :
    breakCh ':' ("BTN_PRESS:" ++ p).data = some ("BTN_PRESS".data, p.data) := by
  have h1 : ("BTN_PRESS:" ++ p).data = "BTN_PRESS".data ++ ':' :: p.data := by
    rw [String.data_append]; simp
  rw [h1]
  exact breakCh_append ':' p.data "BTN_PRESS".data (by decide)

theorem breakCh_mode_change (p : String) :
    breakCh ':' ("MODE_CHANGE:" ++ p).data = some ("MODE_CHANGE".data, p.data) := by
  have h1 : ("MODE_CHANGE:" ++ p).data = "MODE_CHANGE".data ++ ':' :: p.data := by
    rw [String.data_append]; simp
  rw [h1]
  exact breakCh_append ':' p.data "MODE_CHANGE".data (by decide)

theorem handle_ready (h : Handlers) (now : Nat) (s : SM) (p : String) :
    handle_incoming_message h now s ("READY:" ++ p) =
      if s.ready_received then ({ s with last_message_time := now }, [.log "ready_repeat"])
      else ({ s with last_message_time := now, ready_received := true, ready_event_set := true }, [.readyEventSet]) := by
  simp +decide only [handle_incoming_message, breakCh_ready]
  by_cases hr : s.ready_received = true <;> simp [hr]

theorem handle_pong (h : Handlers) (now : Nat) (s : SM) :
    handle_incoming_message h now s "Pong" =
      if s.ready_received then ({ s with last_message_time := now }, [.log "pong"])
      else ({ s with last_message_time := now, ready_received := true, ready_event_set := true }, [.readyEventSet]) := by
  have hb : breakCh ':' "Pong".data = none := by decide
  simp +decide only [handle_incoming_message, hb]
  by_cases hr : s.ready_received = true <;> simp [hr]

theorem handle_slider_bad (h : Handlers) (now : Nat) (s : SM) (params : String)
    (hbad : intPair? params.data = none) :
    handle_incoming_message h now s ("SLIDER_CHANGE:" ++ params) =
      ({ s with last_message_time := now }, [.log "parse_error:SLIDER_CHANGE"]) := by
  simp +decide only [handle_incoming_message, breakCh_slider_change, hbad]
  simp

theorem handle_btn_bad (h : Handlers) (now : Nat) (s : SM) (params : String)
    (hbad : intPair? params.data = none) :
    handle_incoming_message h now s ("BTN_PRESS:" ++ params) =
      ({ s with last_message_time := now }, [.log "parse_error:BTN_PRESS"]) := by
  simp +decide only [handle_incoming_message, breakCh_btn_press, hbad]
  simp

theorem handle_mode_bad (h : Handlers) (now : Nat) (s : SM) (params : String)
    (hbad : parsePyInt params.data = none) :
    handle_incoming_message h now s ("MODE_CHANGE:" ++ params) =
      ({ s with last_message_time := now }, [.log "parse_error:MODE_CHANGE"]) := by
  simp +decide only [handle_incoming_message, breakCh_mode_change, hbad]
  simp

theorem dispatch_lines_cons (h : Handlers) (now : Nat) (s : SM) (l : List Char)
    (ls : List (List Char)) :
    dispatch_lines h now s (l :: ls) =
      if (trimCh l).isEmpty then dispatch_lines h now s ls
      else
        ((dispatch_lines h now (handle_incoming_message h now s (String.mk (trimCh l))).1 ls).1,
          (handle_incoming_message h now s (String.mk (trimCh l))).2 ++
            (dispatch_lines h now (handle_incoming_message h now s (String.mk (trimCh l))).1 ls).2) :=
  rfl

/-- C3 (amended): within one Connection the handshake completes exactly
once — the first `READY:<info>` frame (the READY tag requires a
colon-delimited payload to be recognized; see the counterexample for a bare
`READY`) or a `Pong` arriving while the handshake is incomplete sets the
handshake-received flag and fires `ready_event.set()`; every later
`READY:<info>` or `Pong` only refreshes the heartbeat timestamp, is only
logged, and does not fire the signal again. -/
theorem handshake_single_trigger (h : Handlers) (s : SM) (n1 n2 : Nat) (p : String)
    (m2 : String) (h0 : s.ready_received = false)
    (hm2 : (∃ q, m2 = "READY:" ++ q) ∨ m2 = "Pong") :
    (handle_incoming_message h n1 s ("READY:" ++ p)).1.ready_received = true ∧
    (handle_incoming_message h n1 s ("READY:" ++ p)).2 = [Effect.readyEventSet] ∧
    (handle_incoming_message h n1 s "Pong").1.ready_received = true ∧
    (handle_incoming_message h n1 s "Pong").2 = [Effect.readyEventSet] ∧
    (handle_incoming_message h n2 (handle_incoming_message h n1 s ("READY:" ++ p)).1 m2).1 =
      { (handle_incoming_message h n1 s ("READY:" ++ p)).1 with last_message_time := n2 } ∧
    ∀ e ∈ (handle_incoming_message h n2 (handle_incoming_message h n1 s ("READY:" ++ p)).1 m2).2,
      ∃ tag, e = Effect.log tag := by
  have e1 := handle_ready h n1 s p
  rw [h0] at e1
  simp only [Bool.false_eq_true, if_false] at e1
  have ep := handle_pong h n1 s
  rw [h0] at ep
  simp only [Bool.false_eq_true, if_false] at ep
  refine ⟨by rw [e1], by rw [e1], by rw [ep], by rw [ep], ?_, ?_⟩
  · rcases hm2 with ⟨q, rfl⟩ | rfl
    · rw [e1]
      have e2 := handle_ready h n2
        { s with last_message_time := n1, ready_received := true, ready_event_set := true } q
      simp at e2
      rw [e2]
    · rw [e1]
      have e2 := handle_pong h n2
        { s with last_message_time := n1, ready_received := true, ready_event_set := true }
      simp at e2
      rw [e2]
  · rcases hm2 with ⟨q, rfl⟩ | rfl
    · rw [e1]
      have e2 := handle_ready h n2
        { s with last_message_time := n1, ready_received := true, ready_event_set := true } q
      simp at e2
      rw [e2]
      intro e he
      simp at he
      exact ⟨"ready_repeat", he⟩
    · rw [e1]
      have e2 := handle_pong h n2
        { s with last_message_time := n1, ready_received := true, ready_event_set := true }
      simp at e2
      rw [e2]
      intro e he
      simp at he
      exact ⟨"pong", he⟩

/-- C3 witness: `READY:v1` then `Pong` on a fresh connection — the
handshake completes on the first frame and the second only refreshes the
heartbeat timestamp. -/
theorem handshake_single_trigger_witness :
    (handle_incoming_message h_all 1 s_live "READY:v1").1.ready_received = true ∧
    (handle_incoming_message h_all 1 s_live "READY:v1").2 = [Effect.readyEventSet] ∧
    (handle_incoming_message h_all 2 (handle_incoming_message h_all 1 s_live "READY:v1").1 "Pong").1 =
      { (handle_incoming_message h_all 1 s_live "READY:v1").1 with last_message_time := 2 } :=
  ⟨(handshake_single_trigger h_all s_live 1 2 "v1" "Pong" rfl (Or.inr rfl)).1,
   (handshake_single_trigger h_all s_live 1 2 "v1" "Pong" rfl (Or.inr rfl)).2.1,
   (handshake_single_trigger h_all s_live 1 2 "v1" "Pong" rfl (Or.inr rfl)).2.2.2.2.1⟩

/-- C3 counterexample: a bare `READY` frame without a colon — grammatical
per the spec's `READY[:<version>]` — reaches the no-colon branch of the
dispatcher and does not complete the handshake, so the claim's "first READY
frame sets the flag and fires the signal" fails on this input. -/
theorem handshake_bare_ready_counterexample :
    s_live.ready_received = false ∧
    (handle_incoming_message h_all 7 s_live "READY").1.ready_received = false ∧
    Effect.readyEventSet ∉ (handle_incoming_message h_all 7 s_live "READY").2 := by
  decide

/-- C8 (amended): an inbound frame with a recognized integer-typed tag
whose integer fields are missing or non-numeric (such as
`SLIDER_CHANGE:abc:xyz`) is caught: the dispatcher returns normally with only
a parse-error log, invokes no handler, and changes nothing in the state but
the heartbeat timestamp; the Reader then keeps dispatching the following
lines of the buffer. -/
theorem malformed_frame_tolerance (h : Handlers) (now : Nat) (s : SM) (params : String)
    (ls : List (List Char)) (hbad : intPair? params.data = none)
    (htrim : trimCh ("SLIDER_CHANGE:" ++ params).data = ("SLIDER_CHANGE:" ++ params).data) :
    handle_incoming_message h now s ("SLIDER_CHANGE:" ++ params) =
      ({ s with last_message_time := now }, [Effect.log "parse_error:SLIDER_CHANGE"]) ∧
    handle_incoming_message h now s ("BTN_PRESS:" ++ params) =
      ({ s with last_message_time := now }, [Effect.log "parse_error:BTN_PRESS"]) ∧
    (parsePyInt params.data = none →
      handle_incoming_message h now s ("MODE_CHANGE:" ++ params) =
        ({ s with last_message_time := now }, [Effect.log "parse_error:MODE_CHANGE"])) ∧
    dispatch_lines h now s (("SLIDER_CHANGE:" ++ params).data :: ls) =
      ((dispatch_lines h now { s with last_message_time := now } ls).1,
        Effect.log "parse_error:SLIDER_CHANGE" ::
          (dispatch_lines h now { s with last_message_time := now } ls).2) := by
  refine ⟨handle_slider_bad h now s params hbad, handle_btn_bad h now s params hbad,
    fun hb => handle_mode_bad h now s params hb, ?_⟩
  have hne : (("SLIDER_CHANGE:" ++ params).data).isEmpty = false := by
    rw [String.data_append]
    rfl
  have hcons := dispatch_lines_cons h now s (("SLIDER_CHANGE:" ++ params).data) ls
  rw [htrim] at hcons
  simp only [hne, Bool.false_eq_true, if_false] at hcons
  have heta : String.mk ("SLIDER_CHANGE:" ++ params).data = "SLIDER_CHANGE:" ++ params := rfl
  rw [heta, handle_slider_bad h now s params hbad] at hcons
  rw [hcons]
  simp

/-- C8 witness: the concrete malformed frame of the spec's test. -/
theorem malformed_frame_tolerance_witness :
    handle_incoming_message h_all 42 s_live "SLIDER_CHANGE:abc:xyz" =
      ({ s_live with last_message_time := 42 }, [Effect.log "parse_error:SLIDER_CHANGE"]) ∧
    dispatch_lines h_all 42 s_live ["SLIDER_CHANGE:abc:xyz".data] =
      ({ s_live with last_message_time := 42 }, [Effect.log "parse_error:SLIDER_CHANGE"]) := by
  have hm := malformed_frame_tolerance h_all 42 s_live "abc:xyz" [] (by decide) (by decide)
  refine ⟨?_, ?_⟩
  · have := hm.1
    simpa using this
  · have := hm.2.2.2
    simpa [dispatch_lines] using this

/-- C8 counterexample: the malformed frame `SLIDER_CHANGE:abc:xyz` produces
only a log effect, yet it refreshes `last_message_time`, which is visible to
the application through `get_connection_status().last_message_ago` — so the
claim's "updates no application-visible state beyond the log" fails. -/
theorem malformed_updates_heartbeat_counterexample :
    (handle_incoming_message h_all 42 s_live "SLIDER_CHANGE:abc:xyz").2 =
      [Effect.log "parse_error:SLIDER_CHANGE"] ∧
    (get_connection_status (handle_incoming_message h_all 42 s_live "SLIDER_CHANGE:abc:xyz").1
        true 50).last_message_ago ≠
      (get_connection_status s_live true 50).last_message_ago := by
  decide

theorem modeNamesGo_ok {env : Env} (henv : allOk env) (cm : ConfigManager) (ms : List Nat) :
    ∀ s : SM, alive s = true →
      syncModeNamesGo env cm s ms =
        ({ s with writes := s.writes + ms.length }, ms.length,
          ms.map (fun m => Effect.sent (mode_name_frame cm m))) := by
  induction ms with
  | nil => intro s hs; rfl
  | cons m ms ih =>
    intro s hs
    have hsend : send_mode_name env s m (get_mode_name cm m) =
        ({ s with writes := s.writes + 1 }, true, [Effect.sent (mode_name_frame cm m)]) :=
      send_ok henv hs _
    simp only [syncModeNamesGo, hsend]
    rw [ih { s with writes := s.writes + 1 } hs]
    simp [Nat.add_assoc, Nat.add_comm, Nat.add_left_comm]

theorem buttonsGo_ok {env : Env} (henv : allOk env) (items : List (String × BtnConfig)) :
    ∀ s : SM, alive s = true →
      syncButtonsGo env s items =
        ({ s with writes := s.writes + (btn_frames items).length },
          (btn_frames items).length, btn_frames items) := by
  induction items with
  | nil => intro s hs; rfl
  | cons kc items ih =>
    obtain ⟨k, cfg⟩ := kc
    intro s hs
    cases hk : btnKey? k with
    | none =>
      simp only [syncButtonsGo, hk]
      rw [ih s hs]
      simp [btn_frames, List.filterMap_cons, hk]
    | some mb =>
      obtain ⟨m, b⟩ := mb
      have hsend : send_button_config env s m b cfg =
          ({ s with writes := s.writes + 1 }, true, [Effect.sent (btn_frame m b cfg)]) :=
        send_ok henv hs _
      simp only [syncButtonsGo, hk, hsend]
      rw [ih { s with writes := s.writes + 1 } hs]
      simp [btn_frames, List.filterMap_cons, hk, Nat.add_assoc, Nat.add_comm, Nat.add_left_comm]

theorem slidersGo_ok {env : Env} (henv : allOk env) (apps : List SliderVal) :
    ∀ (s : SM) (i : Nat), alive s = true →
      syncSlidersGo env s i apps =
        ({ s with writes := s.writes + (slider_frames i apps).length },
          slider_frames i apps) := by
  induction apps with
  | nil => intro s i hs; rfl
  | cons a apps ih =>
    intro s i hs
    cases ht : truthy a with
    | false =>
      simp only [syncSlidersGo, ht]
      rw [ih s (i + 1) hs]
      simp [slider_frames, ht]
    | true =>
      have hsend : send_slider_config env s i (apps_str a) =
          ({ s with writes := s.writes + 1 }, true, [Effect.sent (slider_frame i a)]) :=
        send_ok henv hs _
      simp only [syncSlidersGo, ht, hsend]
      rw [ih { s with writes := s.writes + 1 } (i + 1) hs]
      simp [slider_frames, ht, Nat.add_assoc, Nat.add_comm, Nat.add_left_comm]

/-- C1: on a connected manager with an open port, when every send succeeds,
`sync_all_configs` emits exactly `SYNC_START`, then `MODE_COUNT:<n>`, then the
`MODE_NAME` frames for mode indices ascending `0..n-1`, then the `BTN` frames
of the configured buttons, then one `SLIDER` frame per non-empty slider
assignment, then `SYNC_END` last — and returns the number of mode names plus
button configs sent (sliders not counted). -/
theorem sync_order_and_count (env : Env) (s : SM) (cm : ConfigManager)
    (apps : List SliderVal) (henv : allOk env) (hs : alive s = true) :
    (sync_all_configs env s cm apps).2.1 =
      get_num_modes cm + (btn_frames cm.config).length ∧
    (sync_all_configs env s cm apps).2.2 =
      Effect.sent "SYNC_START" ::
        Effect.sent ("MODE_COUNT:" ++ toString (get_num_modes cm)) ::
          (mode_name_frames cm (get_num_modes cm) ++ btn_frames cm.config ++
            slider_frames 0 apps ++ [Effect.sent "SYNC_END"]) := by
  have hc : s.is_connected = true := by
    unfold alive at hs
    simp only [Bool.and_eq_true] at hs
    exact hs.1.1
  have h1 : send_sync_start env s =
      ({ s with is_syncing := true, writes := s.writes + 1 }, true,
        [Effect.sent "SYNC_START"]) :=
    send_ok henv (show alive { s with is_syncing := true } = true from hs) _
  have h2 : send_mode_count env { s with is_syncing := true, writes := s.writes + 1 }
        (get_num_modes cm) =
      ({ s with is_syncing := true, writes := s.writes + 1 + 1 }, true,
        [Effect.sent ("MODE_COUNT:" ++ toString (get_num_modes cm))]) :=
    send_ok henv
      (show alive { s with is_syncing := true, writes := s.writes + 1 } = true from hs) _
  have h3 : syncModeNamesGo env cm { s with is_syncing := true, writes := s.writes + 1 + 1 }
        (List.range (get_num_modes cm)) =
      ({ s with is_syncing := true, writes := s.writes + 1 + 1 + get_num_modes cm },
        get_num_modes cm, mode_name_frames cm (get_num_modes cm)) := by
    have hgo := modeNamesGo_ok henv cm (List.range (get_num_modes cm))
      { s with is_syncing := true, writes := s.writes + 1 + 1 }
      (show alive { s with is_syncing := true, writes := s.writes + 1 + 1 } = true from hs)
    simpa [List.length_range, mode_name_frames] using hgo
  have h4 : syncButtonsGo env
        { s with is_syncing := true, writes := s.writes + 1 + 1 + get_num_modes cm }
        cm.config =
      ({ s with
          is_syncing := true,
          writes := s.writes + 1 + 1 + get_num_modes cm + (btn_frames cm.config).length },
        (btn_frames cm.config).length, btn_frames cm.config) :=
    buttonsGo_ok henv cm.config _ (show alive { s with
      is_syncing := true, writes := s.writes + 1 + 1 + get_num_modes cm } = true from hs)
  have h5 : syncSlidersGo env
        { s with
          is_syncing := true,
          writes := s.writes + 1 + 1 + get_num_modes cm + (btn_frames cm.config).length }
        0 apps =
      ({ s with
          is_syncing := true,
          writes := s.writes + 1 + 1 + get_num_modes cm + (btn_frames cm.config).length +
            (slider_frames 0 apps).length },
        slider_frames 0 apps) :=
    slidersGo_ok henv apps _ 0 (show alive { s with
      is_syncing := true,
      writes := s.writes + 1 + 1 + get_num_modes cm +
        (btn_frames cm.config).length } = true from hs)
  have h6 : send_sync_end env
      { s with
        is_syncing := true,
        writes := s.writes + 1 + 1 + get_num_modes cm + (btn_frames cm.config).length +
          (slider_frames 0 apps).length } =
      ({ s with
        is_syncing := false,
        writes := s.writes + 1 + 1 + get_num_modes cm + (btn_frames cm.config).length +
          (slider_frames 0 apps).length + 1 }, true,
        [Effect.sent "SYNC_END"]) := by
    unfold send_sync_end
    rw [send_ok henv (show alive { s with
      is_syncing := true,
      writes := s.writes + 1 + 1 + get_num_modes cm + (btn_frames cm.config).length +
        (slider_frames 0 apps).length } = true from hs) _]
  unfold sync_all_configs
  rw [if_neg (show ¬ s.is_connected = false by rw [hc]; exact fun hx => nomatch hx)]
  simp [h1, h2, h3, h4, h5, h6]

/-- C1 witness: the spec's example (3 modes, 4 buttons, 2 non-empty sliders)
returns 3 + 4 = 7 with the frames in the specified order. -/
theorem sync_order_and_count_witness :
    (sync_all_configs env_ok s_live cm_ex apps_ex).2.1 = 7 ∧
    (sync_all_configs env_ok s_live cm_ex apps_ex).2.2 =
      Effect.sent "SYNC_START" ::
        Effect.sent ("MODE_COUNT:" ++ toString (get_num_modes cm_ex)) ::
          (mode_name_frames cm_ex (get_num_modes cm_ex) ++ btn_frames cm_ex.config ++
            slider_frames 0 apps_ex ++ [Effect.sent "SYNC_END"]) := by
  have happ := sync_order_and_count env_ok s_live cm_ex apps_ex (fun k => rfl) (by decide)
  refine ⟨?_, happ.2⟩
  rw [happ.1]
  decide
theorem modeNamesGo_dead {env : Env} {cm : ConfigManager} (ms : List Nat) :
    ∀ {s : SM}, alive s = false → (syncModeNamesGo env cm s ms).1 = s := by
  induction ms with
  | nil => intro s _; rfl
  | cons m ms ih =>
    intro s hs
    have hsend : send_mode_name env s m (get_mode_name cm m) = (s, false, [Effect.sendFail]) :=
      send_dead hs _
    simp only [syncModeNamesGo, hsend]
    exact ih hs

theorem buttonsGo_dead {env : Env} (items : List (String × BtnConfig)) :
    ∀ {s : SM}, alive s = false → (syncButtonsGo env s items).1 = s := by
  induction items with
  | nil => intro s _; rfl
  | cons kc items ih =>
    obtain ⟨k, cfg⟩ := kc
    intro s hs
    cases hk : btnKey? k with
    | none => simp only [syncButtonsGo, hk]; exact ih hs
    | some mb =>
      obtain ⟨m, b⟩ := mb
      have hsend : send_button_config env s m b cfg = (s, false, [Effect.sendFail]) :=
        send_dead hs _
      simp only [syncButtonsGo, hk, hsend]
      exact ih hs

theorem slidersGo_dead {env : Env} (apps : List SliderVal) :
    ∀ (i : Nat) {s : SM}, alive s = false → (syncSlidersGo env s i apps).1 = s := by
  induction apps with
  | nil => intro i s _; rfl
  | cons a apps ih =>
    intro i s hs
    cases ht : truthy a with
    | false => simp only [syncSlidersGo, ht]; exact ih (i + 1) hs
    | true =>
      have hsend : send_slider_config env s i (apps_str a) = (s, false, [Effect.sendFail]) :=
        send_dead hs _
      simp only [syncSlidersGo, ht, hsend]
      exact ih (i + 1) hs

theorem modeNamesGo_fail {env : Env} {cm : ConfigManager} (ms : List Nat) :
    ∀ {s : SM}, Effect.sendFail ∈ (syncModeNamesGo env cm s ms).2.2 →
      alive (syncModeNamesGo env cm s ms).1 = false := by
  induction ms with
  | nil => intro s hm; cases hm
  | cons m ms ih =>
    intro s hm
    simp only [syncModeNamesGo, List.append_eq, List.mem_append] at hm
    rcases hm with hm | hm
    · have hd : alive (send_mode_name env s m (get_mode_name cm m)).1 = false :=
        send_sendFail_mem hm
      simp only [syncModeNamesGo]
      rw [modeNamesGo_dead ms hd]
      exact hd
    · simp only [syncModeNamesGo]
      exact ih hm

theorem buttonsGo_fail {env : Env} (items : List (String × BtnConfig)) :
    ∀ {s : SM}, Effect.sendFail ∈ (syncButtonsGo env s items).2.2 →
      alive (syncButtonsGo env s items).1 = false := by
  induction items with
  | nil => intro s hm; cases hm
  | cons kc items ih =>
    obtain ⟨k, cfg⟩ := kc
    intro s hm
    cases hk : btnKey? k with
    | none =>
      simp only [syncButtonsGo, hk] at hm ⊢
      exact ih hm
    | some mb =>
      obtain ⟨m, b⟩ := mb
      simp only [syncButtonsGo, hk, List.append_eq, List.mem_append] at hm ⊢
      rcases hm with hm | hm
      · have hd : alive (send_button_config env s m b cfg).1 = false :=
          send_sendFail_mem hm
        rw [buttonsGo_dead items hd]
        exact hd
      · exact ih hm

theorem slidersGo_fail {env : Env} (apps : List SliderVal) :
    ∀ (i : Nat) {s : SM}, Effect.sendFail ∈ (syncSlidersGo env s i apps).2 →
      alive (syncSlidersGo env s i apps).1 = false := by
  induction apps with
  | nil => intro i s hm; cases hm
  | cons a apps ih =>
    intro i s hm
    cases ht : truthy a with
    | false =>
      simp only [syncSlidersGo, ht] at hm ⊢
      exact ih (i + 1) hm
    | true =>
      simp [syncSlidersGo, ht] at hm ⊢
      rcases hm with hm | hm
      · have hd : alive (send_slider_config env s i (apps_str a)).1 = false :=
          send_sendFail_mem hm
        rw [slidersGo_dead apps (i + 1) hd]
        exact hd
      · exact ih (i + 1) hm

theorem modeNamesGo_ccFree {env : Env} {cm : ConfigManager} (ms : List Nat) :
    ∀ s : SM, ccFree (syncModeNamesGo env cm s ms).2.2 := by
  induction ms with
  | nil => intro s; exact ccFree_nil
  | cons m ms ih =>
    intro s
    simp only [syncModeNamesGo]
    exact ccFree_append (send_ccFree env s _) (ih _)

theorem buttonsGo_ccFree {env : Env} (items : List (String × BtnConfig)) :
    ∀ s : SM, ccFree (syncButtonsGo env s items).2.2 := by
  induction items with
  | nil => intro s; exact ccFree_nil
  | cons kc items ih =>
    obtain ⟨k, cfg⟩ := kc
    intro s
    cases hk : btnKey? k with
    | none => simp only [syncButtonsGo, hk]; exact ih s
    | some mb =>
      obtain ⟨m, b⟩ := mb
      simp only [syncButtonsGo, hk]
      exact ccFree_append (send_ccFree env s _) (ih _)

theorem slidersGo_ccFree {env : Env} (apps : List SliderVal) :
    ∀ (i : Nat) (s : SM), ccFree (syncSlidersGo env s i apps).2 := by
  induction apps with
  | nil => intro i s; exact ccFree_nil
  | cons a apps ih =>
    intro i s
    cases ht : truthy a with
    | false => simp only [syncSlidersGo, ht]; exact ih (i + 1) s
    | true =>
      simp only [syncSlidersGo, ht]
      exact ccFree_append (send_ccFree env s _) (ih (i + 1) _)

theorem modeNamesGo_inert {env : Env} {cm : ConfigManager} (ms : List Nat) :
    ∀ s : SM, inert s (syncModeNamesGo env cm s ms).1 := by
  induction ms with
  | nil => intro s; exact inert_refl s
  | cons m ms ih =>
    intro s
    simp only [syncModeNamesGo]
    exact inert_trans (send_inert env s _) (ih _)

theorem buttonsGo_inert {env : Env} (items : List (String × BtnConfig)) :
    ∀ s : SM, inert s (syncButtonsGo env s items).1 := by
  induction items with
  | nil => intro s; exact inert_refl s
  | cons kc items ih =>
    obtain ⟨k, cfg⟩ := kc
    intro s
    cases hk : btnKey? k with
    | none => simp only [syncButtonsGo, hk]; exact ih s
    | some mb =>
      obtain ⟨m, b⟩ := mb
      simp only [syncButtonsGo, hk]
      exact inert_trans (send_inert env s _) (ih _)

theorem slidersGo_inert {env : Env} (apps : List SliderVal) :
    ∀ (i : Nat) (s : SM), inert s (syncSlidersGo env s i apps).1 := by
  induction apps with
  | nil => intro i s; exact inert_refl s
  | cons a apps ih =>
    intro i s
    cases ht : truthy a with
    | false => simp only [syncSlidersGo, ht]; exact ih (i + 1) s
    | true =>
      simp only [syncSlidersGo, ht]
      exact inert_trans (send_inert env s _) (ih (i + 1) _)

theorem sync_start_inert (env : Env) (s : SM) : inert s (send_sync_start env s).1 :=
  inert_trans (⟨rfl, rfl, rfl, rfl⟩ : inert s { s with is_syncing := true })
    (send_inert env { s with is_syncing := true } "SYNC_START")

theorem sync_end_inert (env : Env) (s : SM) : inert s (send_sync_end env s).1 :=
  inert_trans (send_inert env s "SYNC_END")
    (⟨rfl, rfl, rfl, rfl⟩ :
      inert (send_message env s "SYNC_END").1
        { (send_message env s "SYNC_END").1 with is_syncing := false })

theorem sync_end_fail_of_dead {env : Env} {s : SM} (hd : alive s = false) :
    (send_sync_end env s).2.1 = false := by
  simp [send_sync_end, send_dead hd]

/-- C2: whenever any send of `sync_all_configs` fails (a `sendFail` appears
in the trace), the whole sync returns 0 — the failed send leaves the
connection unusable for every later frame, so `SYNC_END` fails and the
all-or-nothing return of 0 is taken; moreover the sync itself never fires
`CONNECTION_CHANGED`, never closes the port, and leaves the reader and
auto-reconnect flags untouched, so the connection is not torn down because of
the failed sync alone. -/
theorem sync_abort_zero (env : Env) (s : SM) (cm : ConfigManager) (apps : List SliderVal) :
    (Effect.sendFail ∈ (sync_all_configs env s cm apps).2.2 →
      (sync_all_configs env s cm apps).2.1 = 0) ∧
    ccFree (sync_all_configs env s cm apps).2.2 ∧
    inert s (sync_all_configs env s cm apps).1 := by
  by_cases hc : s.is_connected = false
  · have he : sync_all_configs env s cm apps = (s, 0, []) := by
      unfold sync_all_configs; rw [if_pos hc]
    rw [he]
    exact ⟨fun _ => rfl, ccFree_nil, inert_refl s⟩
  · rcases hr1 : send_sync_start env s with ⟨s1, ok1, t1⟩
    have hin1 : inert s s1 := by
      have hx := sync_start_inert env s; rw [hr1] at hx; exact hx
    have hcc1 : ccFree t1 := by
      have hx : ccFree (send_sync_start env s).2.2 :=
        send_ccFree env { s with is_syncing := true } "SYNC_START"
      rw [hr1] at hx; exact hx
    by_cases hok1 : ok1 = false
    · have he : sync_all_configs env s cm apps = (s1, 0, t1) := by
        unfold sync_all_configs
        rw [if_neg hc, hr1]
        simp [hok1]
      rw [he]
      exact ⟨fun _ => rfl, hcc1, hin1⟩
    · rcases hr2 : send_mode_count env s1 (get_num_modes cm) with ⟨s2, ok2, t2⟩
      have hin2 : inert s1 s2 := by
        have hx : inert s1 (send_mode_count env s1 (get_num_modes cm)).1 :=
          send_inert env s1 _
        rw [hr2] at hx; exact hx
      have hcc2 : ccFree t2 := by
        have hx : ccFree (send_mode_count env s1 (get_num_modes cm)).2.2 :=
          send_ccFree env s1 _
        rw [hr2] at hx; exact hx
      by_cases hok2 : ok2 = false
      · have he : sync_all_configs env s cm apps = (s2, 0, t1 ++ t2) := by
          unfold sync_all_configs
          rw [if_neg hc, hr1]
          simp [hok1, hr2, hok2]
        rw [he]
        exact ⟨fun _ => rfl, ccFree_append hcc1 hcc2, inert_trans hin1 hin2⟩
      · rcases hr3 : syncModeNamesGo env cm s2 (List.range (get_num_modes cm)) with ⟨s3, c3, t3⟩
        rcases hr4 : syncButtonsGo env s3 cm.config with ⟨s4, c4, t4⟩
        rcases hr5 : syncSlidersGo env s4 0 apps with ⟨s5, t5⟩
        rcases hr6 : send_sync_end env s5 with ⟨s6, ok6, t6⟩
        have hin3 : inert s2 s3 := by
          have hx := @modeNamesGo_inert env cm (List.range (get_num_modes cm)) s2
          rw [hr3] at hx; exact hx
        have hin4 : inert s3 s4 := by
          have hx := @buttonsGo_inert env cm.config s3
          rw [hr4] at hx; exact hx
        have hin5 : inert s4 s5 := by
          have hx := @slidersGo_inert env apps 0 s4
          rw [hr5] at hx; exact hx
        have hin6 : inert s5 s6 := by
          have hx := sync_end_inert env s5
          rw [hr6] at hx; exact hx
        have hcc3 : ccFree t3 := by
          have hx := @modeNamesGo_ccFree env cm (List.range (get_num_modes cm)) s2
          rw [hr3] at hx; exact hx
        have hcc4 : ccFree t4 := by
          have hx := @buttonsGo_ccFree env cm.config s3
          rw [hr4] at hx; exact hx
        have hcc5 : ccFree t5 := by
          have hx := @slidersGo_ccFree env apps 0 s4
          rw [hr5] at hx; exact hx
        have hcc6 : ccFree t6 := by
          have hx : ccFree (send_sync_end env s5).2.2 := send_ccFree env s5 "SYNC_END"
          rw [hr6] at hx; exact hx
        have hinAll : inert s s6 :=
          inert_trans hin1 (inert_trans hin2 (inert_trans hin3
            (inert_trans hin4 (inert_trans hin5 hin6))))
        have hccAll : ccFree (t1 ++ t2 ++ t3 ++ t4 ++ t5 ++ t6) :=
          ccFree_append (ccFree_append (ccFree_append (ccFree_append
            (ccFree_append hcc1 hcc2) hcc3) hcc4) hcc5) hcc6
        by_cases hok6 : ok6 = false
        · have he : sync_all_configs env s cm apps = (s6, 0, t1 ++ t2 ++ t3 ++ t4 ++ t5 ++ t6) := by
            unfold sync_all_configs
            rw [if_neg hc, hr1]
            simp [hok1, hr2, hok2, hr3, hr4, hr5, hr6, hok6]
          rw [he]
          exact ⟨fun _ => rfl, hccAll, hinAll⟩
        · have he : sync_all_configs env s cm apps =
              (s6, c3 + c4, t1 ++ t2 ++ t3 ++ t4 ++ t5 ++ t6) := by
            unfold sync_all_configs
            rw [if_neg hc, hr1]
            simp [hok1, hr2, hok2, hr3, hr4, hr5, hr6, hok6]
          rw [he]
          refine ⟨?_, hccAll, hinAll⟩
          intro hmem
          exfalso
          have hok1t : ok1 = true := by revert hok1; cases ok1 <;> simp
          have hok2t : ok2 = true := by revert hok2; cases ok2 <;> simp
          have hok6t : ok6 = true := by revert hok6; cases ok6 <;> simp
          have ht1 : t1 = [Effect.sent "SYNC_START"] := by
            have hx : (send_message env { s with is_syncing := true } "SYNC_START").2.1 = true := by
              have hy : (send_sync_start env s).2.1 = true := by rw [hr1]; exact hok1t
              exact hy
            have hz : (send_sync_start env s).2.2 = [Effect.sent "SYNC_START"] :=
              send_true_trace hx
            rw [hr1] at hz; exact hz
          have ht2 : t2 = [Effect.sent ("MODE_COUNT:" ++ toString (get_num_modes cm))] := by
            have hx : (send_message env s1 ("MODE_COUNT:" ++ toString (get_num_modes cm))).2.1 = true := by
              have hy : (send_mode_count env s1 (get_num_modes cm)).2.1 = true := by
                rw [hr2]; exact hok2t
              exact hy
            have hz : (send_mode_count env s1 (get_num_modes cm)).2.2 =
                [Effect.sent ("MODE_COUNT:" ++ toString (get_num_modes cm))] :=
              send_true_trace hx
            rw [hr2] at hz; exact hz
          have ht6 : t6 = [Effect.sent "SYNC_END"] := by
            have hx : (send_message env s5 "SYNC_END").2.1 = true := by
              have hy : (send_sync_end env s5).2.1 = true := by rw [hr6]; exact hok6t
              exact hy
            have hz : (send_sync_end env s5).2.2 = [Effect.sent "SYNC_END"] :=
              send_true_trace hx
            rw [hr6] at hz; exact hz
          have hcontra : ok6 = false := by
            simp only [List.mem_append] at hmem
            have hdead5 : alive s5 = false := by
              rcases hmem with ((((h | h) | h) | h) | h) | h
              · rw [ht1] at h; simp at h
              · rw [ht2] at h; simp at h
              · have hd3 : alive s3 = false := by
                  have hx : alive (syncModeNamesGo env cm s2 (List.range (get_num_modes cm))).1 = false :=
                    modeNamesGo_fail (List.range (get_num_modes cm)) (by rw [hr3]; exact h)
                  rw [hr3] at hx; exact hx
                have h4s : s4 = s3 := by
                  have hx : (syncButtonsGo env s3 cm.config).1 = s3 := buttonsGo_dead cm.config hd3
                  rw [hr4] at hx; exact hx
                have hd4 : alive s4 = false := by rw [h4s]; exact hd3
                have h5s : s5 = s4 := by
                  have hx : (syncSlidersGo env s4 0 apps).1 = s4 := slidersGo_dead apps 0 hd4
                  rw [hr5] at hx; exact hx
                rw [h5s]; exact hd4
              · have hd4 : alive s4 = false := by
                  have hx : alive (syncButtonsGo env s3 cm.config).1 = false :=
                    buttonsGo_fail cm.config (by rw [hr4]; exact h)
                  rw [hr4] at hx; exact hx
                have h5s : s5 = s4 := by
                  have hx : (syncSlidersGo env s4 0 apps).1 = s4 := slidersGo_dead apps 0 hd4
                  rw [hr5] at hx; exact hx
                rw [h5s]; exact hd4
              · have hx : alive (syncSlidersGo env s4 0 apps).1 = false :=
                  slidersGo_fail apps 0 (by rw [hr5]; exact h)
                rw [hr5] at hx; exact hx
              · rw [ht6] at h; simp at h
            have hx : (send_sync_end env s5).2.1 = false := sync_end_fail_of_dead hdead5
            rw [hr6] at hx; exact hx
          rw [hok6t] at hcontra
          cases hcontra

/-- C2 witness: with every write failing, the sync's trace records the
failure and the returned count is 0. -/
theorem sync_abort_zero_witness :
    Effect.sendFail ∈ (sync_all_configs env_none s_live cm_ex []).2.2 ∧
    (sync_all_configs env_none s_live cm_ex []).2.1 = 0 :=
  ⟨by decide, (sync_abort_zero env_none s_live cm_ex []).1 (by decide)⟩

/-- C9 (amended): whenever `sync_all_configs` returns a nonzero count the
run reached `send_sync_end`, which unconditionally clears `is_syncing` —
only the early aborts returning 0 after `SYNC_START` (a failed `SYNC_START`
or `MODE_COUNT` send) can leave the Syncing sub-state set. -/
theorem sync_nonzero_clears_syncing (env : Env) (s : SM) (cm : ConfigManager)
    (apps : List SliderVal)
    (hne : (sync_all_configs env s cm apps).2.1 ≠ 0) :
    (sync_all_configs env s cm apps).1.is_syncing = false := by
  by_cases hc : s.is_connected = false
  · exact absurd (show (sync_all_configs env s cm apps).2.1 = 0 by
      unfold sync_all_configs; rw [if_pos hc]) hne
  · rcases hr1 : send_sync_start env s with ⟨s1, ok1, t1⟩
    by_cases hok1 : ok1 = false
    · refine absurd ?_ hne
      unfold sync_all_configs
      rw [if_neg hc, hr1]
      simp [hok1]
    · rcases hr2 : send_mode_count env s1 (get_num_modes cm) with ⟨s2, ok2, t2⟩
      by_cases hok2 : ok2 = false
      · refine absurd ?_ hne
        unfold sync_all_configs
        rw [if_neg hc, hr1]
        simp [hok1, hr2, hok2]
      · rcases hr3 : syncModeNamesGo env cm s2 (List.range (get_num_modes cm)) with ⟨s3, c3, t3⟩
        rcases hr4 : syncButtonsGo env s3 cm.config with ⟨s4, c4, t4⟩
        rcases hr5 : syncSlidersGo env s4 0 apps with ⟨s5, t5⟩
        rcases hr6 : send_sync_end env s5 with ⟨s6, ok6, t6⟩
        have h6 : s6.is_syncing = false := by
          have hx : (send_sync_end env s5).1.is_syncing = false := rfl
          rw [hr6] at hx; exact hx
        have he : (sync_all_configs env s cm apps).1 = s6 := by
          unfold sync_all_configs
          rw [if_neg hc, hr1]
          by_cases hok6 : ok6 = false <;> simp [hok1, hr2, hok2, hr3, hr4, hr5, hr6, hok6]
        rw [he]
        exact h6

/-- C9 witness: the successful example sync returns 7 and exits the
Syncing sub-state. -/
theorem sync_nonzero_clears_syncing_witness :
    (sync_all_configs env_ok s_live cm_ex apps_ex).1.is_syncing = false :=
  sync_nonzero_clears_syncing env_ok s_live cm_ex apps_ex (by decide)

/-- C9 counterexample: a manager that believes itself connected while the
port handle is closed enters the Syncing sub-state in `send_sync_start`,
aborts with 0, and returns with `is_syncing` still true. -/
theorem sync_leaves_syncing_counterexample :
    s_portclosed.is_syncing = false ∧
    (sync_all_configs env_ok s_portclosed cm_ex []).1.is_syncing = true ∧
    (sync_all_configs env_ok s_portclosed cm_ex []).2.1 = 0 := by
  decide

theorem handle_preserves_conn (h : Handlers) (now : Nat) (s : SM) (m : String) :
    (handle_incoming_message h now s m).1.is_connected = s.is_connected := by
  rcases handle_state_cases h now s m with he | he <;> rw [he]

theorem dispatch_lines_conn (h : Handlers) (now : Nat) :
    ∀ (ls : List (List Char)) (s : SM),
      (dispatch_lines h now s ls).1.is_connected = s.is_connected := by
  intro ls
  induction ls with
  | nil => intro s; rfl
  | cons l ls ih =>
    intro s
    rw [dispatch_lines_cons]
    by_cases hl : (trimCh l).isEmpty = true
    · simp [hl, ih s]
    · simp only [hl, Bool.false_eq_true, if_false]
      rw [ih]
      exact handle_preserves_conn h now s (String.mk (trimCh l))

theorem dispatch_lines_ccFree (h : Handlers) (now : Nat) :
    ∀ (ls : List (List Char)) (s : SM), ccFree (dispatch_lines h now s ls).2 := by
  intro ls
  induction ls with
  | nil => intro s; exact ccFree_nil
  | cons l ls ih =>
    intro s
    rw [dispatch_lines_cons]
    by_cases hl : (trimCh l).isEmpty = true
    · simp only [hl, if_true]
      exact ih s
    · simp only [hl, Bool.false_eq_true, if_false]
      exact ccFree_append (handle_ccFree h now s (String.mk (trimCh l))) (ih _)

theorem go_err_step (h : Handlers) (env : Env) (t : Nat) (rest : List ReadEvent)
    (sm : SM) (buf : List Char) (c : Nat)
    (hrun : sm.running = true) (hconn : sm.is_connected = true)
    (hka : sm.keepalive_enabled = false) (hlt : c + 1 < 5) :
    read_loop_go h env ⟨sm, buf, c⟩ (⟨t, ReadKind.ioError⟩ :: rest) =
      read_loop_go h env ⟨sm, buf, c + 1⟩ rest := by
  simp [read_loop_go, read_iter, hka, hrun, hconn, max_errors, Nat.not_le.mpr hlt]

theorem go_err_fault (h : Handlers) (env : Env) (t : Nat) (rest : List ReadEvent)
    (sm : SM) (buf : List Char) (c : Nat)
    (hrun : sm.running = true) (hconn : sm.is_connected = true)
    (hka : sm.keepalive_enabled = false) (hge : 5 ≤ c + 1) :
    read_loop_go h env ⟨sm, buf, c⟩ (⟨t, ReadKind.ioError⟩ :: rest) =
      (⟨(handle_disconnection h sm).1, buf, c + 1⟩, (handle_disconnection h sm).2) := by
  simp [read_loop_go, read_iter, hka, hrun, hconn, max_errors, hge]

theorem go_avail_last (h : Handlers) (env : Env) (t : Nat) (data : String)
    (sm : SM) (buf : List Char) (c : Nat)
    (hrun : sm.running = true) (hconn : sm.is_connected = true)
    (hka : sm.keepalive_enabled = false)
    (hpe : sm.port_exists = true) (hpo : sm.port_open = true) :
    read_loop_go h env ⟨sm, buf, c⟩ [⟨t, ReadKind.avail data⟩] =
      (⟨(dispatch_lines h t sm (splitCh '\n' (buf ++ data.data)).dropLast).1,
        (splitCh '\n' (buf ++ data.data)).getLastD [], 0⟩,
        (dispatch_lines h t sm (splitCh '\n' (buf ++ data.data)).dropLast).2) := by
  simp [read_loop_go, read_iter, hka, hrun, hconn, hpe, hpo]

/-- C4: from a healthy connected state (keepalive pings disabled to isolate
the error policy), 5 consecutive I/O errors in the Reader trigger exactly one
fault transition — one `CONNECTION_CHANGED(false)` — closing the port and
ending the loop with the counter at 5, while 4 errors followed by one
successful read leave `is_connected` true with the counter reset to 0 and no
fault notification; an unexpected exception behaves identically to an I/O
error. -/
theorem reader_error_threshold (h : Handlers) (env : Env) (s : SM) (t : Nat)
    (data : String) (rest : List ReadEvent)
    (hrun : s.running = true) (hconn : s.is_connected = true)
    (hpe : s.port_exists = true) (hpo : s.port_open = true)
    (hka : s.keepalive_enabled = false) (hcc : h.connection_changed = true) :
    read_loop h env s (List.replicate 5 ⟨t, ReadKind.ioError⟩ ++ rest) =
      (⟨{ s with is_connected := false, port_open := false }, [], 5⟩,
        [Effect.connectionChanged false]) ∧
    (read_loop h env s
        (List.replicate 4 ⟨t, ReadKind.ioError⟩ ++ [⟨t, ReadKind.avail data⟩])).1.sm.is_connected
      = true ∧
    (read_loop h env s
        (List.replicate 4 ⟨t, ReadKind.ioError⟩ ++ [⟨t, ReadKind.avail data⟩])).1.consecutive_errors
      = 0 ∧
    ccFree (read_loop h env s
        (List.replicate 4 ⟨t, ReadKind.ioError⟩ ++ [⟨t, ReadKind.avail data⟩])).2 ∧
    (∀ c : Nat, read_iter h env ⟨s, [], c⟩ ⟨t, ReadKind.unexpectedError⟩ =
      read_iter h env ⟨s, [], c⟩ ⟨t, ReadKind.ioError⟩) := by
  have hd : handle_disconnection h s =
      ({ s with is_connected := false, port_open := false }, [Effect.connectionChanged false]) := by
    unfold handle_disconnection
    simp [hconn, hpe, hpo, hcc]
  have hfive : (List.replicate 5 ⟨t, ReadKind.ioError⟩ : List ReadEvent) ++ rest =
      ⟨t, ReadKind.ioError⟩ :: ⟨t, ReadKind.ioError⟩ :: ⟨t, ReadKind.ioError⟩ ::
        ⟨t, ReadKind.ioError⟩ :: ⟨t, ReadKind.ioError⟩ :: rest := rfl
  have hfour : (List.replicate 4 ⟨t, ReadKind.ioError⟩ : List ReadEvent) ++
        [⟨t, ReadKind.avail data⟩] =
      ⟨t, ReadKind.ioError⟩ :: ⟨t, ReadKind.ioError⟩ :: ⟨t, ReadKind.ioError⟩ ::
        ⟨t, ReadKind.ioError⟩ :: [⟨t, ReadKind.avail data⟩] := rfl
  have hrunA : ∀ evs : List ReadEvent,
      read_loop_go h env ⟨s, [], 0⟩ (⟨t, ReadKind.ioError⟩ :: ⟨t, ReadKind.ioError⟩ ::
        ⟨t, ReadKind.ioError⟩ :: ⟨t, ReadKind.ioError⟩ :: evs) =
      read_loop_go h env ⟨s, [], 4⟩ evs := by
    intro evs
    rw [go_err_step h env t _ s [] 0 hrun hconn hka (by decide)]
    rw [go_err_step h env t _ s [] (0 + 1) hrun hconn hka (by decide)]
    rw [go_err_step h env t _ s [] (0 + 1 + 1) hrun hconn hka (by decide)]
    rw [go_err_step h env t _ s [] (0 + 1 + 1 + 1) hrun hconn hka (by decide)]
  refine ⟨?_, ?_, ?_, ?_, fun c => rfl⟩
  · rw [read_loop, hfive, hrunA]
    rw [go_err_fault h env t _ s [] 4 hrun hconn hka (by decide)]
    rw [hd]
  · rw [read_loop, hfour, hrunA]
    rw [go_avail_last h env t data s [] 4 hrun hconn hka hpe hpo]
    simpa using (dispatch_lines_conn h t _ s).trans hconn
  · rw [read_loop, hfour, hrunA]
    rw [go_avail_last h env t data s [] 4 hrun hconn hka hpe hpo]
  · rw [read_loop, hfour, hrunA]
    rw [go_avail_last h env t data s [] 4 hrun hconn hka hpe hpo]
    exact dispatch_lines_ccFree h t _ _

/-- C4 witness: the live fixture under 5 errors, and under 4 errors
followed by a successful read of a complete frame. -/
theorem reader_error_threshold_witness :
    read_loop h_all env_ok s_live (List.replicate 5 ⟨3, ReadKind.ioError⟩ ++ []) =
      (⟨{ s_live with is_connected := false, port_open := false }, [], 5⟩,
        [Effect.connectionChanged false]) ∧
    (read_loop h_all env_ok s_live
        (List.replicate 4 ⟨3, ReadKind.ioError⟩ ++
          [⟨3, ReadKind.avail "MODE_CHANGE:1\n"⟩])).1.sm.is_connected = true ∧
    (read_loop h_all env_ok s_live
        (List.replicate 4 ⟨3, ReadKind.ioError⟩ ++
          [⟨3, ReadKind.avail "MODE_CHANGE:1\n"⟩])).1.consecutive_errors = 0 := by
  have happ := reader_error_threshold h_all env_ok s_live 3 "MODE_CHANGE:1\n" []
    rfl rfl rfl rfl rfl rfl
  exact ⟨happ.1, happ.2.1, happ.2.2.1⟩
end BoB
